import Mathlib

/-!
Verification development for the StudioSync booking API.

The embedding follows the repository's source:
* the relational schema (SQL migration): enumerations, tables, unique
  indexes and foreign keys;
* `src/app.ts`: the health handlers, the global error middleware, the
  route mounting / rate-limiter wiring and the shutdown handlers;
* the reservation admission check of spec section 4.1, which the visible
  handlers do not implement; it is modelled from the spec where noted.

Times are minutes (Nat); a reservation holds the half-open interval
[startTime, endTime).
-/

namespace StudioSync

/-- Status enumeration of a Reservation, from the SQL migration:
CREATE TYPE ReservationStatus AS ENUM (PENDING, CONFIRMED, CANCELLED, COMPLETED). -/
inductive ReservationStatus
  | PENDING
  | CONFIRMED
  | CANCELLED
  | COMPLETED
deriving DecidableEq, Repr

/-- A reservation blocks its studio while PENDING or CONFIRMED. -/
def ReservationStatus.isActive : ReservationStatus → Bool
  | .PENDING => true
  | .CONFIRMED => true
  | _ => false

/-- Status enumeration of an equipment booking, from the SQL migration:
CREATE TYPE BookingStatus AS ENUM (RESERVED, IN_USE, RETURNED). -/
inductive BookingStatus
  | RESERVED
  | IN_USE
  | RETURNED
deriving DecidableEq, Repr

/-- An equipment booking blocks its equipment while RESERVED or IN_USE. -/
def BookingStatus.blocksEquipment : BookingStatus → Bool
  | .RESERVED => true
  | .IN_USE => true
  | .RETURNED => false

/-- A row of studio_availabilities: day_of_week, opening_time,
closing_time (minutes of day), is_available. -/
structure StudioAvailability where
  dayOfWeek : Nat
  openingTime : Nat
  closingTime : Nat
  isAvailable : Bool
deriving DecidableEq, Repr

/-- A studios row, reduced to the fields the admission check reads. -/
structure Studio where
  id : Nat
  availabilities : List StudioAvailability
deriving DecidableEq, Repr

/-- An equipment row, reduced to the fields the admission check reads. -/
structure Equipment where
  id : Nat
  studioId : Nat
deriving DecidableEq, Repr

/-- A reservations row: studio, half-open time interval, status. -/
structure Reservation where
  id : Nat
  studioId : Nat
  startTime : Nat
  endTime : Nat
  status : ReservationStatus
deriving DecidableEq, Repr

/-- An equipment_bookings row: reservation, equipment, interval, status. -/
structure EquipmentBooking where
  reservationId : Nat
  equipmentId : Nat
  startTime : Nat
  endTime : Nat
  status : BookingStatus
deriving DecidableEq, Repr

/-- The store state the admission check reads and writes. -/
structure BookingState where
  studios : List Studio
  equipment : List Equipment
  reservations : List Reservation
  equipmentBookings : List EquipmentBooking
  nextId : Nat
deriving DecidableEq, Repr

/-- A reservation-creation request: studio, interval, equipment ids. -/
structure ReservationRequest where
  studioId : Nat
  startTime : Nat
  endTime : Nat
  equipmentIds : List Nat
deriving DecidableEq, Repr

/-- Failure codes of the admission check, from spec section 4.1. -/
inductive AdmissionFailure
  | INVALID_RANGE
  | STUDIO_UNAVAILABLE
  | STUDIO_CONFLICT
  | EQUIPMENT_CONFLICT (equipmentId : Nat)
  | NOT_FOUND
deriving DecidableEq, Repr

def minutesPerDay : Nat := 1440

/-- Two half-open intervals [s1,e1) and [s2,e2) overlap. -/
def overlapsB (s1 e1 s2 e2 : Nat) : Bool :=
  decide (s1 < e2) && decide (s2 < e1)

/-- Modelled from the spec: the studio has an availability row for
day-of-week d covering minutes [lo, hi) of that day. -/
def dayCovered (st : Studio) (lo hi d : Nat) : Bool :=
  st.availabilities.any fun a =>
    a.dayOfWeek == d % 7 && a.isAvailable &&
      decide (a.openingTime ≤ lo) && decide (hi ≤ a.closingTime)

/-- Modelled from the spec: the studio's weekly availability windows cover
the full interval [startT, endT) on every day it spans (section 4.1
step 2, which no visible handler implements). -/
def availabilityCovers (st : Studio) (startT endT : Nat) : Bool :=
  let firstDay := startT / minutesPerDay
  let lastDay := (endT - 1) / minutesPerDay
  (List.range (lastDay + 1 - firstDay)).all fun i =>
    let d := firstDay + i
    let lo := if d = firstDay then startT % minutesPerDay else 0
    let hi := if d = lastDay then (endT - 1) % minutesPerDay + 1 else minutesPerDay
    dayCovered st lo hi d

/-- Modelled from the spec: an existing CONFIRMED or PENDING reservation
for the requested studio overlaps the requested interval (section 4.1
step 3). -/
def hasStudioConflict (s : BookingState) (req : ReservationRequest) : Bool :=
  s.reservations.any fun r =>
    r.studioId == req.studioId && r.status.isActive &&
      overlapsB req.startTime req.endTime r.startTime r.endTime

/-- Modelled from the spec: an existing RESERVED or IN_USE equipment
booking for equipment e overlaps the requested interval (section 4.1
step 4). -/
def hasEquipmentConflict (s : BookingState) (req : ReservationRequest) (e : Nat) : Bool :=
  s.equipmentBookings.any fun b =>
    b.equipmentId == e && b.status.blocksEquipment &&
      overlapsB req.startTime req.endTime b.startTime b.endTime

/-- Modelled from the spec: on success the Reservation (status PENDING,
the schema default) and its EquipmentBookings (status RESERVED) are
created atomically (section 4.1 step 5). -/
def commitReservation (s : BookingState) (req : ReservationRequest) : BookingState :=
  { studios := s.studios
    equipment := s.equipment
    reservations :=
      Reservation.mk s.nextId req.studioId req.startTime req.endTime .PENDING :: s.reservations
    equipmentBookings :=
      req.equipmentIds.map
        (fun e => EquipmentBooking.mk s.nextId e req.startTime req.endTime .RESERVED)
        ++ s.equipmentBookings
    nextId := s.nextId + 1 }

/-- Modelled from the spec: the reservation admission check of section
4.1, which the repository's visible handlers do not implement. Checks are
run in the spec's order: invalid range, unknown studio, availability,
studio conflict, unknown equipment, equipment conflict, then the atomic
commit. -/
def reservationAdmission (s : BookingState) (req : ReservationRequest) :
    Except AdmissionFailure BookingState :=
  if req.endTime ≤ req.startTime then .error .INVALID_RANGE else
  match s.studios.find? (fun st => st.id == req.studioId) with
  | none => .error .NOT_FOUND
  | some st =>
    if availabilityCovers st req.startTime req.endTime then
      if hasStudioConflict s req then .error .STUDIO_CONFLICT
      else if req.equipmentIds.all (fun e => s.equipment.any (fun eq => eq.id == e)) then
        match req.equipmentIds.find? (fun e => hasEquipmentConflict s req e) with
        | some e => .error (.EQUIPMENT_CONFLICT e)
        | none => .ok (commitReservation s req)
      else .error .NOT_FOUND
    else .error .STUDIO_UNAVAILABLE

/-- Two reservations hold overlapping intervals. -/
def resOverlap (r1 r2 : Reservation) : Prop :=
  r1.startTime < r2.endTime ∧ r2.startTime < r1.endTime

/-- The set of CONFIRMED/PENDING reservations of any studio never contains
two with overlapping intervals. -/
def noStudioOverlap (s : BookingState) : Prop :=
  ∀ r1 ∈ s.reservations, ∀ r2 ∈ s.reservations,
    r1.id ≠ r2.id → r1.studioId = r2.studioId →
    r1.status.isActive = true → r2.status.isActive = true → ¬ resOverlap r1 r2

/-- Every stored reservation id is below the id counter. -/
def idsBounded (s : BookingState) : Prop :=
  ∀ r ∈ s.reservations, r.id < s.nextId

/-- Well-formedness of a booking state. -/
def stateWF (s : BookingState) : Prop :=
  idsBounded s ∧ noStudioOverlap s

end StudioSync

namespace StudioSync

/-- If the admission check accepts, the result is the committed state, no
studio conflict was present, and the range was valid. -/
theorem admission_ok_inversion (s : BookingState) (req : ReservationRequest)
    (s1 : BookingState) (h : reservationAdmission s req = .ok s1) :
    s1 = commitReservation s req ∧ hasStudioConflict s req = false ∧
      req.startTime < req.endTime := by
  unfold reservationAdmission at h
  split at h
  · exact Except.noConfusion h
  · next hrange =>
    split at h
    · exact Except.noConfusion h
    · split at h
      · split at h
        · exact Except.noConfusion h
        · next hconf =>
          split at h
          · split at h
            · exact Except.noConfusion h
            · exact ⟨(Except.ok.injEq _ _).mp h.symm, Bool.eq_false_iff.mpr hconf, by omega⟩
          · exact Except.noConfusion h
      · exact Except.noConfusion h

/-- A present studio conflict bars acceptance: every branch of the
admission check other than the conflict-free one returns an error. -/
theorem admission_not_ok_of_conflict (s : BookingState) (req : ReservationRequest)
    (h : hasStudioConflict s req = true) :
    ∀ s2, reservationAdmission s req ≠ .ok s2 := by
  intro s2 hok
  obtain ⟨-, hfalse, -⟩ := admission_ok_inversion s req s2 hok
  rw [h] at hfalse
  exact Bool.noConfusion hfalse

/-- Absence of studio conflict means the check never reports STUDIO_CONFLICT. -/
theorem admission_ne_conflict (s : BookingState) (req : ReservationRequest)
    (h : hasStudioConflict s req = false) :
    reservationAdmission s req ≠ .error .STUDIO_CONFLICT := by
  intro hbad
  unfold reservationAdmission at hbad
  split at hbad
  · simp at hbad
  · split at hbad
    · simp at hbad
    · split at hbad
      · split at hbad
        · next hconf => rw [h] at hconf; exact Bool.false_ne_true hconf
        · split at hbad
          · split at hbad
            · simp at hbad
            · exact Except.noConfusion hbad
          · simp at hbad
      · simp at hbad

/-- Unfolds hasStudioConflict = false into a pointwise statement. -/
theorem no_conflict_forall (s : BookingState) (req : ReservationRequest)
    (h : hasStudioConflict s req = false) :
    ∀ r ∈ s.reservations, r.studioId = req.studioId → r.status.isActive = true →
      ¬(req.startTime < r.endTime ∧ r.startTime < req.endTime) := by
  intro r hr hstud hact hov
  rw [hasStudioConflict, List.any_eq_false] at h
  have := h r hr
  simp [hstud, hact, overlapsB, hov.1, hov.2] at this

/-- C1: if the booking-state invariant holds and a request is accepted,
the invariant still holds afterwards, and a second request on the same
studio with an overlapping interval can no longer be accepted. -/
theorem studio_no_double_booking (s : BookingState) (req1 req2 : ReservationRequest)
    (s1 : BookingState) (hwf : stateWF s)
    (h1 : reservationAdmission s req1 = .ok s1) :
    stateWF s1 ∧
    (req2.studioId = req1.studioId →
      req2.startTime < req1.endTime → req1.startTime < req2.endTime →
      ∀ s2, reservationAdmission s1 req2 ≠ .ok s2) := by
  obtain ⟨hs1, hconf, hrange⟩ := admission_ok_inversion s req1 s1 h1
  subst hs1
  have hnc := no_conflict_forall s req1 hconf
  constructor
  · constructor
    · intro r hr
      simp only [commitReservation, List.mem_cons] at hr
      rcases hr with rfl | hr
      · exact Nat.lt_succ_self _
      · exact Nat.lt_succ_of_lt (hwf.1 r hr)
    · intro r1 hr1 r2 hr2 hid hstud ha1 ha2 hov
      simp only [commitReservation, List.mem_cons] at hr1 hr2
      rcases hr1 with rfl | hr1 <;> rcases hr2 with rfl | hr2
      · exact hid rfl
      · exact hnc r2 hr2 hstud.symm ha2 ⟨hov.1, hov.2⟩
      · exact hnc r1 hr1 hstud ha1 ⟨hov.2, hov.1⟩
      · exact hwf.2 r1 hr1 r2 hr2 hid hstud ha1 ha2 hov
  · intro hstud hov1 hov2 s2
    apply admission_not_ok_of_conflict
    simp only [hasStudioConflict, commitReservation, List.any_cons]
    apply Bool.or_eq_true_iff.mpr
    left
    simp [hstud, overlapsB, ReservationStatus.isActive, hov1, hov2]

/-- C2: a request with end ≤ start is rejected with INVALID_RANGE (and,
the check returning an error, no reservation is created); a request that
overlaps no active reservation of the studio — in particular one exactly
abutting an existing reservation's end — is never rejected with
STUDIO_CONFLICT. -/
theorem invalid_range_and_abutting (s : BookingState) (req : ReservationRequest) :
    (req.endTime ≤ req.startTime →
      reservationAdmission s req = .error .INVALID_RANGE) ∧
    ((∀ r ∈ s.reservations, r.studioId = req.studioId → r.status.isActive = true →
        r.endTime ≤ req.startTime ∨ req.endTime ≤ r.startTime) →
      reservationAdmission s req ≠ .error .STUDIO_CONFLICT) := by
  constructor
  · intro hle
    unfold reservationAdmission
    rw [if_pos hle]
  · intro habut
    apply admission_ne_conflict
    rw [hasStudioConflict, List.any_eq_false]
    intro r hr
    simp only [overlapsB, Bool.and_eq_true, beq_iff_eq, decide_eq_true_eq]
    rintro ⟨⟨hstud, hact⟩, h1, h2⟩
    have := habut r hr hstud hact
    omega

/-- A studio open all day every day of the week. -/
def demoStudio : Studio :=
  { id := 1
    availabilities := (List.range 7).map (fun d => StudioAvailability.mk d 0 1440 true) }

/-- An empty booking state holding only the demo studio. -/
def demoS0 : BookingState :=
  { studios := [demoStudio], equipment := [], reservations := [],
    equipmentBookings := [], nextId := 0 }

/-- The state after admitting the 600-720 request on the demo studio. -/
def demoS1 : BookingState :=
  { studios := [demoStudio], equipment := [],
    reservations := [Reservation.mk 0 1 600 720 .PENDING],
    equipmentBookings := [], nextId := 1 }

/-- Witness for C1 at a concrete input: after admitting 600-720 the state
is well formed and an overlapping 660-780 request is not accepted. -/
theorem studio_no_double_booking_witness :
    stateWF demoS1 ∧
      (∀ s2, reservationAdmission demoS1 (ReservationRequest.mk 1 660 780 []) ≠ .ok s2) := by
  have h := studio_no_double_booking demoS0 (ReservationRequest.mk 1 600 720 [])
    (ReservationRequest.mk 1 660 780 []) demoS1
    (by exact ⟨fun r hr => by simp [demoS0] at hr,
               fun r1 hr1 => by simp [demoS0] at hr1⟩)
    rfl
  exact ⟨h.1, h.2 rfl (by decide) (by decide)⟩

/-- A state holding one CONFIRMED reservation 600-720 on the demo studio. -/
def demoAbutState : BookingState :=
  { studios := [demoStudio], equipment := [],
    reservations := [Reservation.mk 0 1 600 720 .CONFIRMED],
    equipmentBookings := [], nextId := 1 }

/-- Witness for C2 at concrete inputs: a start == end request yields
INVALID_RANGE, and a request abutting the existing 600-720 reservation at
720 is not rejected as a studio conflict. -/
theorem invalid_range_and_abutting_witness :
    reservationAdmission demoAbutState (ReservationRequest.mk 1 720 720 []) =
        .error .INVALID_RANGE ∧
      reservationAdmission demoAbutState (ReservationRequest.mk 1 720 780 []) ≠
        .error .STUDIO_CONFLICT := by
  refine ⟨(invalid_range_and_abutting demoAbutState _).1 (by decide),
          (invalid_range_and_abutting demoAbutState _).2 ?_⟩
  intro r hr
  simp only [demoAbutState, List.mem_singleton] at hr
  subst hr
  intro _ _
  left
  decide

/-!
The health handlers and the global error middleware of `src/app.ts`.
Store access is represented by the outcome of each query the handler
awaits: `Except String` mirrors the resolved/rejected promise.
-/

/-- Outcomes of the store calls made by GET /api/health/db: the raw
SELECT 1 probe and the four aggregate counts. -/
structure StoreOutcomes where
  queryRaw : Except String Unit
  userCount : Except String Nat
  activeStudioCount : Except String Nat
  recentReservationCount : Except String Nat
  availableEquipmentCount : Except String Nat

/-- The statistics object of the /api/health/db success body. -/
structure DbStatistics where
  totalUsers : Nat
  activeStudios : Nat
  recentReservations : Nat
  availableEquipment : Nat
deriving DecidableEq, Repr

/-- The data object of the /api/health/db success body. -/
structure DbHealthData where
  status : String
  statistics : DbStatistics
deriving DecidableEq, Repr

/-- The response of GET /api/health/db: HTTP status plus envelope. -/
structure HealthDbResponse where
  status : Nat
  success : Bool
  message : String
  data : Option DbHealthData
  error : Option String
deriving DecidableEq, Repr

/-- The store calls of the handler, sequenced as the code awaits them:
the probe first, then the four counts; the first failure aborts. -/
def healthDbQueries (st : StoreOutcomes) : Except String DbStatistics := do
  let _ ← st.queryRaw
  let u ← st.userCount
  let sc ← st.activeStudioCount
  let rc ← st.recentReservationCount
  let ec ← st.availableEquipmentCount
  pure ⟨u, sc, rc, ec⟩

/-- GET /api/health/db handler (`src/app.ts` lines 134-167): 200 with
status/statistics on success, 503 with the error message on any failure. -/
def healthDbHandler (st : StoreOutcomes) : HealthDbResponse :=
  match healthDbQueries st with
  | .ok stats =>
    { status := 200, success := true, message := "Database health check successful",
      data := some ⟨"connected", stats⟩, error := none }
  | .error e =>
    { status := 503, success := false, message := "Database connection failed",
      data := none, error := some e }

/-- Every store call of the /api/health/db handler succeeded. -/
def storeOk (st : StoreOutcomes) : Bool :=
  st.queryRaw.isOk && st.userCount.isOk && st.activeStudioCount.isOk &&
    st.recentReservationCount.isOk && st.availableEquipmentCount.isOk

/-- C3: /api/health/db answers 200 with success and a status/statistics
body exactly when every store query succeeds; any store failure yields
503 with success set to false and an error message; 200 is never
returned on store failure. -/
theorem health_db_status (st : StoreOutcomes) :
    (((healthDbHandler st).status = 200 ∧ (healthDbHandler st).success = true ∧
        (healthDbHandler st).data.isSome = true) ↔ storeOk st = true) ∧
    (storeOk st = false →
      (healthDbHandler st).status = 503 ∧ (healthDbHandler st).success = false ∧
        (healthDbHandler st).error.isSome = true) ∧
    ¬((healthDbHandler st).status = 200 ∧ storeOk st = false) := by
  rcases st with ⟨q, u, sc, rc, ec⟩
  cases q <;> cases u <;> cases sc <;> cases rc <;> cases ec <;>
    simp [healthDbHandler, healthDbQueries, storeOk, Except.isOk, Except.toBool,
      Except.bind, bind, pure, Except.pure]

/-- A store whose probe query fails. -/
def demoDeadStore : StoreOutcomes :=
  { queryRaw := .error "connect ECONNREFUSED", userCount := .ok 0,
    activeStudioCount := .ok 0, recentReservationCount := .ok 0,
    availableEquipmentCount := .ok 0 }

/-- Witness for C3 at a concrete input: with the store unreachable the
handler answers 503 and success false. -/
theorem health_db_status_witness :
    (healthDbHandler demoDeadStore).status = 503 ∧
      (healthDbHandler demoDeadStore).success = false ∧
      (healthDbHandler demoDeadStore).error.isSome = true :=
  (health_db_status demoDeadStore).2.1 rfl

/-- Per-request process facts the /api/health handler reports. -/
structure ProcessInfo where
  timestamp : String
  uptime : Nat
  memoryUsage : Nat
  nodeVersion : String
deriving DecidableEq, Repr

/-- The data object of the /api/health body (`src/app.ts` lines 114-124). -/
structure HealthData where
  status : String
  message : String
  timestamp : String
  uptime : Nat
  environment : String
  version : String
  database : String
  memoryUsage : Nat
  nodeVersion : String
deriving DecidableEq, Repr

/-- The response of GET /api/health. -/
structure HealthResponse where
  status : Nat
  success : Bool
  message : String
  data : HealthData
deriving DecidableEq, Repr

/-- GET /api/health handler (`src/app.ts` lines 113-131). It takes the
store outcomes as an argument only to express that it ignores them: the
body never performs a store call. -/
def healthHandler (nodeEnv apiVersion : String) (info : ProcessInfo)
    (_store : StoreOutcomes) : HealthResponse :=
  { status := 200, success := true, message := "Health check successful",
    data :=
      { status := "OK", message := "StudioSync API is running",
        timestamp := info.timestamp, uptime := info.uptime,
        environment := nodeEnv, version := apiVersion,
        database := "connected", memoryUsage := info.memoryUsage,
        nodeVersion := info.nodeVersion } }

/-- C9: /api/health always answers 200 with success true, its database
field is the constant "connected", and its output is independent of the
store state (no store access). -/
theorem health_liveness_constant (nodeEnv apiVersion : String) (info : ProcessInfo)
    (st1 st2 : StoreOutcomes) :
    healthHandler nodeEnv apiVersion info st1 = healthHandler nodeEnv apiVersion info st2 ∧
      (healthHandler nodeEnv apiVersion info st1).status = 200 ∧
      (healthHandler nodeEnv apiVersion info st1).success = true ∧
      (healthHandler nodeEnv apiVersion info st1).data.database = "connected" :=
  ⟨rfl, rfl, rfl, rfl⟩

/-- An error object reaching the global error middleware: name, message,
optional store error code, optional HTTP status, optional stack. -/
structure AppError where
  name : String
  message : String
  code : Option String
  status : Option Nat
  stack : Option String
deriving DecidableEq, Repr

/-- The response produced by the global error middleware. -/
structure ErrorResponse where
  status : Nat
  success : Bool
  message : String
  error : String
  details : Option String
  stack : Option String
deriving DecidableEq, Repr

/-- Global error middleware (`src/app.ts` lines 261-302): the HTTP status
is err.status defaulting to 500; the message/code pair comes from the
name/code chain; details and stack are spread in only in development. -/
def errorMiddleware (nodeEnv : String) (err : AppError) : ErrorResponse :=
  let status := err.status.getD 500
  let pair : String × String :=
    if err.name = "ValidationError" then ("Validation error", "VALIDATION_ERROR")
    else if err.name = "UnauthorizedError" then ("Authentication required", "UNAUTHORIZED")
    else if err.name = "ForbiddenError" then ("Insufficient permissions", "FORBIDDEN")
    else if err.code = some "P2002" then ("Duplicate entry", "DUPLICATE_ENTRY")
    else if err.code = some "P2025" then ("Record not found", "NOT_FOUND")
    else ("Internal server error", "INTERNAL_ERROR")
  { status := status, success := false, message := pair.1, error := pair.2,
    details := if nodeEnv = "development" then some err.message else none,
    stack := if nodeEnv = "development" then err.stack else none }

/-- C4 counterexample: a ValidationError carrying no status field is
mapped to code VALIDATION_ERROR yet HTTP status 500, not a 4xx status —
the middleware never derives the status from the error category. -/
theorem error_middleware_validation_500 :
    (errorMiddleware "production"
        (AppError.mk "ValidationError" "bad input" none none none)).error =
      "VALIDATION_ERROR" ∧
    (errorMiddleware "production"
        (AppError.mk "ValidationError" "bad input" none none none)).status = 500 :=
  ⟨rfl, rfl⟩

/-- C4 (amended): the middleware answers with status err.status (500 when
absent); the stable code follows the name/code chain — VALIDATION_ERROR,
UNAUTHORIZED, FORBIDDEN by name, DUPLICATE_ENTRY for store code P2002 and
NOT_FOUND for P2025 when no name matches, INTERNAL_ERROR otherwise — and
the details and stack fields are present only in development. -/
theorem error_middleware_spec (nodeEnv : String) (err : AppError) :
    (errorMiddleware nodeEnv err).status = err.status.getD 500 ∧
    (errorMiddleware nodeEnv err).success = false ∧
    (err.name = "ValidationError" →
      (errorMiddleware nodeEnv err).error = "VALIDATION_ERROR") ∧
    (err.name = "UnauthorizedError" →
      (errorMiddleware nodeEnv err).error = "UNAUTHORIZED") ∧
    (err.name = "ForbiddenError" →
      (errorMiddleware nodeEnv err).error = "FORBIDDEN") ∧
    (err.name ∉ ["ValidationError", "UnauthorizedError", "ForbiddenError"] →
      err.code = some "P2002" →
      (errorMiddleware nodeEnv err).error = "DUPLICATE_ENTRY") ∧
    (err.name ∉ ["ValidationError", "UnauthorizedError", "ForbiddenError"] →
      err.code ≠ some "P2002" → err.code = some "P2025" →
      (errorMiddleware nodeEnv err).error = "NOT_FOUND") ∧
    (err.name ∉ ["ValidationError", "UnauthorizedError", "ForbiddenError"] →
      err.code ≠ some "P2002" → err.code ≠ some "P2025" →
      (errorMiddleware nodeEnv err).error = "INTERNAL_ERROR") ∧
    ((errorMiddleware nodeEnv err).details.isSome = true ↔ nodeEnv = "development") ∧
    (errorMiddleware nodeEnv err).stack =
      (if nodeEnv = "development" then err.stack else none) := by
  simp only [errorMiddleware, List.mem_cons, List.mem_singleton, not_or]
  split_ifs <;> simp_all

/-- Witness for C4's amended theorem at concrete inputs: a store
duplicate-key error named neither of the three names, with status 409,
maps to DUPLICATE_ENTRY at status 409, with no details outside
development. -/
theorem error_middleware_spec_witness :
    (errorMiddleware "production"
        (AppError.mk "PrismaClientKnownRequestError" "dup" (some "P2002") (some 409) none)).error =
      "DUPLICATE_ENTRY" ∧
    (errorMiddleware "production"
        (AppError.mk "PrismaClientKnownRequestError" "dup" (some "P2002") (some 409) none)).status =
      409 ∧
    (errorMiddleware "production"
        (AppError.mk "PrismaClientKnownRequestError" "dup" (some "P2002") (some 409) none)).details =
      none := by
  have h := error_middleware_spec "production"
    (AppError.mk "PrismaClientKnownRequestError" "dup" (some "P2002") (some 409) none)
  refine ⟨h.2.2.2.2.2.1 (by decide) rfl, ?_, ?_⟩
  · exact h.1.trans rfl
  · have hd := h.2.2.2.2.2.2.2.2.1
    cases hopt : (errorMiddleware "production"
        (AppError.mk "PrismaClientKnownRequestError" "dup" (some "P2002") (some 409) none)).details
    · rfl
    · rw [hopt] at hd
      simp at hd

/-!
The user-role enumerations. The SQL migration declares
CREATE TYPE UserRole AS ENUM with four values; the TypeScript helper
additionally lists USER.
-/

/-- The UserRole enumeration of the SQL migration (the stored column
type): ADMIN, STUDIO_OWNER, ARTIST, TECHNICIAN. -/
inductive SqlUserRole
  | ADMIN
  | STUDIO_OWNER
  | ARTIST
  | TECHNICIAN
deriving DecidableEq, Repr

/-- String form of a stored role value. -/
def SqlUserRole.toName : SqlUserRole → String
  | .ADMIN => "ADMIN"
  | .STUDIO_OWNER => "STUDIO_OWNER"
  | .ARTIST => "ARTIST"
  | .TECHNICIAN => "TECHNICIAN"

/-- The value list of the SQL CREATE TYPE UserRole. -/
def sqlUserRoleValues : List String :=
  ["ADMIN", "STUDIO_OWNER", "ARTIST", "TECHNICIAN"]

/-- The UserRoleValues list of the TypeScript enum helper. -/
def tsUserRoleValues : List String :=
  ["ADMIN", "STUDIO_OWNER", "ARTIST", "TECHNICIAN", "USER"]

/-- A users row, reduced to the role column: its type is the SQL enum,
so a stored row can only carry one of the enum's values. -/
structure UserRow where
  id : Nat
  role : SqlUserRole
deriving DecidableEq, Repr

/-- C5 counterexample: the stored UserRole enumeration does not comprise
five values — USER appears in the TypeScript list but not in the SQL
enum, which has exactly four values. -/
theorem user_role_not_five :
    sqlUserRoleValues.length = 4 ∧ "USER" ∈ tsUserRoleValues ∧
      "USER" ∉ sqlUserRoleValues := by decide

/-- C5 (amended): the SQL UserRole enum — the type of the stored role
column — comprises exactly ADMIN, STUDIO_OWNER, ARTIST, TECHNICIAN;
every stored User row carries one of these four values; the TypeScript
layer lists these four plus USER. -/
theorem user_role_enumeration :
    sqlUserRoleValues = ["ADMIN", "STUDIO_OWNER", "ARTIST", "TECHNICIAN"] ∧
    tsUserRoleValues = ["ADMIN", "STUDIO_OWNER", "ARTIST", "TECHNICIAN", "USER"] ∧
    (∀ u : UserRow, u.role.toName ∈ sqlUserRoleValues) ∧
    sqlUserRoleValues.all (fun v => v ∈ tsUserRoleValues) = true := by
  refine ⟨rfl, rfl, ?_, by decide⟩
  intro u
  cases u.role <;> simp [SqlUserRole.toName, sqlUserRoleValues]

/-!
The foreign keys of the SQL migration, and the cascade triggered by
deleting a users row.
-/

/-- ON DELETE behaviour of a foreign key, as declared in the migration. -/
inductive OnDelete
  | cascade
  | setNull
deriving DecidableEq, Repr

/-- A declared foreign key: table, column, referenced table, ON DELETE. -/
structure ForeignKey where
  table : String
  column : String
  refTable : String
  onDelete : OnDelete
deriving DecidableEq, Repr

/-- Every ALTER TABLE ... ADD CONSTRAINT ... FOREIGN KEY of the SQL
migration, in declaration order. -/
def schemaForeignKeys : List ForeignKey :=
  [⟨"studios", "owner_id", "users", .cascade⟩,
   ⟨"equipment", "studio_id", "studios", .cascade⟩,
   ⟨"studio_availabilities", "studio_id", "studios", .cascade⟩,
   ⟨"reservations", "studio_id", "studios", .cascade⟩,
   ⟨"reservations", "created_by", "users", .cascade⟩,
   ⟨"reservation_participants", "reservation_id", "reservations", .cascade⟩,
   ⟨"reservation_participants", "user_id", "users", .cascade⟩,
   ⟨"equipment_bookings", "reservation_id", "reservations", .cascade⟩,
   ⟨"equipment_bookings", "equipment_id", "equipment", .cascade⟩,
   ⟨"equipment_bookings", "user_id", "users", .cascade⟩,
   ⟨"payments", "reservation_id", "reservations", .cascade⟩,
   ⟨"projects", "studio_id", "studios", .cascade⟩,
   ⟨"projects", "reservation_id", "reservations", .setNull⟩,
   ⟨"files", "project_id", "projects", .cascade⟩,
   ⟨"files", "uploaded_by", "users", .cascade⟩,
   ⟨"notifications", "user_id", "users", .cascade⟩]

/-- A studios row reduced to id and owner. -/
structure StudioRow where
  id : Nat
  ownerId : Nat
deriving DecidableEq, Repr

/-- A reservations row reduced to id, studio and author. -/
structure ReservationRow where
  id : Nat
  studioId : Nat
  createdBy : Nat
deriving DecidableEq, Repr

/-- A reservation_participants row reduced to reservation and user. -/
structure ParticipantRow where
  id : Nat
  reservationId : Nat
  userId : Nat
deriving DecidableEq, Repr

/-- The tables touched by deleting a users row. -/
structure RelationalDb where
  users : List Nat
  studios : List StudioRow
  reservations : List ReservationRow
  participants : List ParticipantRow
deriving DecidableEq, Repr

/-- DELETE FROM users realized with the migration's ON DELETE CASCADE
clauses: owned studios go (studios.owner_id), authored reservations go
(reservations.created_by) as do reservations of deleted studios
(reservations.studio_id), and participations go with the user
(reservation_participants.user_id) or with a deleted reservation
(reservation_participants.reservation_id). -/
def deleteUser (db : RelationalDb) (u : Nat) : RelationalDb :=
  let studioGone : Nat → Bool := fun sid =>
    db.studios.any (fun st => st.id == sid && st.ownerId == u)
  let reservationGone : Nat → Bool := fun rid =>
    db.reservations.any (fun r => r.id == rid && (r.createdBy == u || studioGone r.studioId))
  { users := db.users.filter (fun x => x != u)
    studios := db.studios.filter (fun st => st.ownerId != u)
    reservations := db.reservations.filter
      (fun r => r.createdBy != u && !studioGone r.studioId)
    participants := db.participants.filter
      (fun p => p.userId != u && !reservationGone p.reservationId) }

/-- C6 counterexample: not every foreign key of the schema cascades on
delete — projects.reservation_id is declared ON DELETE SET NULL. -/
theorem foreign_keys_not_all_cascade :
    schemaForeignKeys.all (fun fk => fk.onDelete == OnDelete.cascade) = false ∧
      ForeignKey.mk "projects" "reservation_id" "reservations" OnDelete.setNull ∈
        schemaForeignKeys := by decide

/-- C6 (amended): deleting a User deletes, via the cascading foreign
keys, every Studio it owns, every Reservation it created, and every
participation row referencing it; every foreign key of the schema
cascades on delete except projects.reservation_id, which is ON DELETE
SET NULL. -/
theorem user_delete_cascades (db : RelationalDb) (u : Nat) :
    ((deleteUser db u).users.all (fun x => x != u) = true) ∧
    ((deleteUser db u).studios.all (fun st => st.ownerId != u) = true) ∧
    ((deleteUser db u).reservations.all (fun r => r.createdBy != u) = true) ∧
    ((deleteUser db u).participants.all (fun p => p.userId != u) = true) ∧
    schemaForeignKeys.all
      (fun fk => fk.onDelete == OnDelete.cascade ||
        (fk.table == "projects" && fk.column == "reservation_id" &&
          fk.onDelete == OnDelete.setNull)) = true := by
  refine ⟨?_, ?_, ?_, ?_, by decide⟩ <;>
    · rw [List.all_eq_true]
      intro x hx
      rw [deleteUser, List.mem_filter] at hx
      first
        | exact hx.2
        | (simp only [Bool.and_eq_true] at hx; exact hx.2.1)

/-!
The studio_availabilities table and its unique index
studio_availabilities_studio_id_day_of_week_key on (studio_id,
day_of_week). Inserts and updates carry SQL semantics: a statement whose
result would violate the unique index is rejected by the store.
-/

/-- A studio_availabilities row. -/
structure AvailabilityRow where
  id : Nat
  studioId : Nat
  dayOfWeek : Nat
  openingTime : Nat
  closingTime : Nat
  isAvailable : Bool
deriving DecidableEq, Repr

/-- At most one row per (studio, day-of-week) pair. -/
def uniquePerStudioDay (rows : List AvailabilityRow) : Prop :=
  ∀ sid day, rows.countP (fun r => r.studioId == sid && r.dayOfWeek == day) ≤ 1

/-- INSERT INTO studio_availabilities under the unique index: rejected
when a row with the same (studio_id, day_of_week) already exists. -/
def insertAvailability (rows : List AvailabilityRow) (r : AvailabilityRow) :
    Except String (List AvailabilityRow) :=
  if rows.any (fun x => x.studioId == r.studioId && x.dayOfWeek == r.dayOfWeek) then
    .error "duplicate key value violates unique constraint"
  else .ok (r :: rows)

/-- The new value of a row under UPDATE ... WHERE id = targetId, setting
day_of_week, opening_time, closing_time and is_available. -/
def applyUpdate (targetId newDay newOpen newClose : Nat) (newAvail : Bool)
    (x : AvailabilityRow) : AvailabilityRow :=
  if x.id == targetId then
    { id := x.id, studioId := x.studioId, dayOfWeek := newDay,
      openingTime := newOpen, closingTime := newClose, isAvailable := newAvail }
  else x

/-- UPDATE of a studio_availabilities row under the unique index: the
update is rejected when another row of the same studio already occupies
the new day-of-week; updating a missing id is a no-op. -/
def updateAvailability (rows : List AvailabilityRow) (targetId newDay newOpen newClose : Nat)
    (newAvail : Bool) : Except String (List AvailabilityRow) :=
  match rows.find? (fun x => x.id == targetId) with
  | none => .ok rows
  | some old =>
    if rows.any (fun x => x.id != targetId && x.studioId == old.studioId &&
        x.dayOfWeek == newDay) then
      .error "duplicate key value violates unique constraint"
    else .ok (rows.map (applyUpdate targetId newDay newOpen newClose newAvail))

/-- With pairwise-distinct primary keys, at most one row has a given id. -/
theorem countP_sameId_le_one (rows : List AvailabilityRow) (t : Nat)
    (h : rows.Pairwise (fun a b => a.id ≠ b.id)) :
    rows.countP (fun x => x.id == t) ≤ 1 := by
  induction rows with
  | nil => simp
  | cons a l ih =>
    rw [List.pairwise_cons] at h
    rw [List.countP_cons]
    by_cases ha : a.id = t
    · have hz : l.countP (fun x => x.id == t) = 0 := by
        rw [List.countP_eq_zero]
        intro b hb
        simp only [beq_iff_eq]
        exact fun hbt => (h.1 b hb) (ha.trans hbt.symm)
      simp [hz, ha]
    · have ha' : (a.id == t) = false := by simp [ha]
      simp only [ha']
      simpa using ih h.2

/-- C7: under the unique index on (studio_id, day_of_week), a state with
at most one availability row per (studio, day-of-week) pair keeps that
property across every accepted insert and every accepted update. -/
theorem availability_unique_per_studio_day (rows rows1 rows2 : List AvailabilityRow)
    (r : AvailabilityRow) (targetId newDay newOpen newClose : Nat) (newAvail : Bool)
    (hids : rows.Pairwise (fun a b => a.id ≠ b.id))
    (huniq : uniquePerStudioDay rows) :
    (insertAvailability rows r = .ok rows1 → uniquePerStudioDay rows1) ∧
    (updateAvailability rows targetId newDay newOpen newClose newAvail = .ok rows2 →
      uniquePerStudioDay rows2) := by
  constructor
  · intro h
    unfold insertAvailability at h
    split at h
    · exact Except.noConfusion h
    · next hany =>
      have hany' : (rows.any fun x =>
          x.studioId == r.studioId && x.dayOfWeek == r.dayOfWeek) = false :=
        Bool.eq_false_iff.mpr hany
      rw [← (Except.ok.injEq _ _).mp h]
      intro sid day
      rw [List.countP_cons]
      by_cases hp : (r.studioId == sid && r.dayOfWeek == day) = true
      · simp only [Bool.and_eq_true, beq_iff_eq] at hp
        have hz : rows.countP (fun x => x.studioId == sid && x.dayOfWeek == day) = 0 := by
          rw [List.countP_eq_zero]
          intro b hb
          rw [List.any_eq_false] at hany'
          have := hany' b hb
          rw [← hp.1, ← hp.2]
          exact this
        simp only [Bool.and_eq_true, beq_iff_eq]
        rw [hz, if_pos ⟨hp.1, hp.2⟩]
      · have hp' : (r.studioId == sid && r.dayOfWeek == day) = false :=
          Bool.eq_false_iff.mpr hp
        simp only [hp']
        simpa using huniq sid day
  · intro h
    unfold updateAvailability at h
    split at h
    · rw [← (Except.ok.injEq _ _).mp h]
      exact huniq
    · next old hfind =>
      split at h
      · exact Except.noConfusion h
      · next hany =>
        have hany' : (rows.any fun x => x.id != targetId && x.studioId == old.studioId &&
            x.dayOfWeek == newDay) = false := Bool.eq_false_iff.mpr hany
        rw [List.any_eq_false] at hany'
        have hold_mem : old ∈ rows := List.mem_of_find?_eq_some hfind
        have hold_id : old.id = targetId := by
          have := List.find?_some hfind
          simpa using this
        have same_id_eq : ∀ x ∈ rows, x.id = targetId → x = old := by
          intro x hx hxid
          by_contra hne
          exact hids.forall (fun _ _ hab => Ne.symm hab) hold_mem hx
            (fun he => hne he.symm) (hold_id.trans hxid.symm)
        rw [← (Except.ok.injEq _ _).mp h]
        intro sid day
        rw [List.countP_map]
        by_cases hkey : sid = old.studioId ∧ day = newDay
        · refine Nat.le_trans (List.countP_mono_left ?_)
            (countP_sameId_le_one rows targetId hids)
          intro x hx hpx
          simp only [Function.comp, applyUpdate] at hpx
          by_cases hxid : x.id = targetId
          · simp [hxid]
          · exfalso
            have hxid' : (x.id == targetId) = false := by simp [hxid]
            rw [hxid'] at hpx
            simp only [Bool.false_eq_true, if_false, Bool.and_eq_true, beq_iff_eq] at hpx
            have := hany' x hx
            simp only [Bool.and_eq_true, beq_iff_eq, bne_iff_ne, ne_eq] at this
            exact this ⟨⟨hxid, hkey.1 ▸ hpx.1⟩, hkey.2 ▸ hpx.2⟩
        · refine Nat.le_trans (List.countP_mono_left ?_) (huniq sid day)
          intro x hx hpx
          simp only [Function.comp, applyUpdate] at hpx
          by_cases hxid : x.id = targetId
          · exfalso
            have hxold : x = old := same_id_eq x hx hxid
            have hxid' : (x.id == targetId) = true := by simp [hxid]
            rw [hxid'] at hpx
            simp only [if_true, Bool.and_eq_true, beq_iff_eq] at hpx
            exact hkey ⟨hxold ▸ hpx.1.symm, hpx.2.symm⟩

          · have hxid' : (x.id == targetId) = false := by simp [hxid]
            rw [hxid'] at hpx
            simp only [Bool.false_eq_true, if_false] at hpx
            exact hpx

/-- Witness for C7 at concrete inputs: inserting into the empty table and
updating a missing row both go through the theorem with its hypotheses
discharged on concrete data. -/
theorem availability_unique_witness :
    (insertAvailability [] (AvailabilityRow.mk 0 1 2 540 1320 true) =
        .ok [AvailabilityRow.mk 0 1 2 540 1320 true] →
      uniquePerStudioDay [AvailabilityRow.mk 0 1 2 540 1320 true]) ∧
    (updateAvailability [] 0 3 540 1320 true = .ok [] → uniquePerStudioDay []) := by
  exact availability_unique_per_studio_day [] [AvailabilityRow.mk 0 1 2 540 1320 true] []
    (AvailabilityRow.mk 0 1 2 540 1320 true) 0 3 540 1320 true
    List.Pairwise.nil (by intro sid day; simp)

/-!
The shutdown handlers and the route mounting of `src/app.ts`.
-/

/-- An observable step of the shutdown sequence. -/
inductive ShutdownEvent
  | storeDisconnect
  | serverClose
  | exitZero
  | exitOne
deriving DecidableEq, BEq, Repr

/-- SIGTERM handler (`src/app.ts` lines 320-335): inside the try block it
first awaits prisma.$disconnect(), then calls server.close, whose
callback — run once outstanding requests finish — exits with 0; a
throwing disconnect is caught and exits with 1. -/
def sigtermHandler (disconnectOk : Bool) : List ShutdownEvent :=
  if disconnectOk then [.storeDisconnect, .serverClose, .exitZero]
  else [.storeDisconnect, .exitOne]

/-- SIGINT handler (`src/app.ts` lines 337-352), identical in body to the
SIGTERM handler. -/
def sigintHandler (disconnectOk : Bool) : List ShutdownEvent :=
  if disconnectOk then [.storeDisconnect, .serverClose, .exitZero]
  else [.storeDisconnect, .exitOne]

/-- C8 evidence: on a termination signal with a succeeding disconnect,
both handlers close the store connection strictly before closing the
HTTP server, then exit 0 — the server is not drained first. -/
theorem shutdown_closes_store_before_server :
    sigtermHandler true = [.storeDisconnect, .serverClose, .exitZero] ∧
    sigintHandler true = [.storeDisconnect, .serverClose, .exitZero] ∧
    (sigtermHandler true).indexOf .storeDisconnect <
      (sigtermHandler true).indexOf .serverClose := by decide

/-- The route handlers a request can reach, per the mounts of
`src/app.ts`. -/
inductive RouteTarget
  | healthRoot
  | healthDb
  | apiDocs
  | versionedAuth
  | versionedStudios
  | versionedBookings
  | versionedEquipment
  | unversionedAuth
  | unversionedStudios
  | unversionedBookings
  | unversionedEquipment
  | notFound
deriving DecidableEq, Repr

/-- The handler belongs to an unversioned compatibility mount. -/
def RouteTarget.isUnversioned : RouteTarget → Bool
  | .unversionedAuth => true
  | .unversionedStudios => true
  | .unversionedBookings => true
  | .unversionedEquipment => true
  | _ => false

/-- Sub-mounts of the versioned api router, tried on the path with the
mount prefix stripped. -/
def versionedSubroute (rest : List String) : Option RouteTarget :=
  if ["auth"].isPrefixOf rest then some .versionedAuth
  else if ["studios"].isPrefixOf rest then some .versionedStudios
  else if ["bookings"].isPrefixOf rest then some .versionedBookings
  else if ["equipment"].isPrefixOf rest then some .versionedEquipment
  else none

/-- The unversioned compatibility mounts, in registration order. -/
def unversionedRoute (path : List String) : Option RouteTarget :=
  if ["api", "auth"].isPrefixOf path then some .unversionedAuth
  else if ["api", "studios"].isPrefixOf path then some .unversionedStudios
  else if ["api", "bookings"].isPrefixOf path then some .unversionedBookings
  else if ["api", "equipment"].isPrefixOf path then some .unversionedEquipment
  else none

/-- Request dispatch of `src/app.ts` (paths as segment lists, mounts in
registration order): the exact health and docs routes come first, then
the versioned router — whose first middleware is the rate limiter, so
entering that mount invokes it — then the unversioned mounts. The first
component records whether the rate limiter middleware was invoked. -/
def dispatch (version : String) (path : List String) : Bool × RouteTarget :=
  if path = ["api", "health"] then (false, .healthRoot)
  else if path = ["api", "health", "db"] then (false, .healthDb)
  else if path = ["api"] then (false, .apiDocs)
  else if ["api", version].isPrefixOf path then
    match versionedSubroute (path.drop 2) with
    | some h => (true, h)
    | none => (true, (unversionedRoute path).getD .notFound)
  else (false, (unversionedRoute path).getD .notFound)

/-- A two-segment mount matches exactly the paths it prefixes. -/
theorem prefix2_iff (a b : String) (path : List String) :
    ([a, b].isPrefixOf path = true) ↔ ∃ rest, path = a :: b :: rest := by
  cases path with
  | nil => simp [List.isPrefixOf]
  | cons p0 t =>
    cases t with
    | nil => simp [List.isPrefixOf]
    | cons p1 rest =>
      simp only [List.isPrefixOf, Bool.and_eq_true, beq_iff_eq, List.cons.injEq]
      constructor
      · rintro ⟨rfl, rfl, -⟩
        exact ⟨rest, rfl, rfl, rfl⟩
      · rintro ⟨r, rfl, rfl, rfl⟩
        simp [List.isPrefixOf]

/-- The versioned sub-mounts never resolve to an unversioned handler. -/
theorem versionedSubroute_not_unversioned (rest : List String) (h : RouteTarget)
    (hs : versionedSubroute rest = some h) : h.isUnversioned = false := by
  unfold versionedSubroute at hs
  split_ifs at hs <;>
    first
      | exact Option.noConfusion hs
      | (injection hs with hs; subst hs; rfl)

/-- A resolved unversioned mount forces the path's second segment. -/
theorem unversionedRoute_forces_segment (path : List String) (u : RouteTarget)
    (hu : unversionedRoute path = some u) (version : String)
    (hp : ["api", version].isPrefixOf path = true) :
    version ∈ ["auth", "studios", "bookings", "equipment"] := by
  obtain ⟨r, rfl⟩ := (prefix2_iff _ _ _).mp hp
  unfold unversionedRoute at hu
  split_ifs at hu <;>
    next hpre =>
      obtain ⟨r2, he⟩ := (prefix2_iff _ _ _).mp hpre
      obtain ⟨-, rfl, -⟩ := List.cons.injEq .. ▸ he
      simp_all

/-- C10: as long as the configured version prefix is not itself one of
the four resource names, the rate limiter runs only on requests entering
the versioned mount /api/version/..., and any request resolved by an
unversioned compatibility mount never passed through the rate limiter. -/
theorem limiter_only_on_versioned_mount (version : String) (path : List String)
    (hv : version ∉ ["auth", "studios", "bookings", "equipment"]) :
    ((dispatch version path).1 = true → ["api", version].isPrefixOf path = true) ∧
    ((dispatch version path).2.isUnversioned = true → (dispatch version path).1 = false) := by
  unfold dispatch
  split_ifs with h1 h2 h3 h4
  · exact ⟨fun hlim => by simp at hlim, fun hu => by simp [RouteTarget.isUnversioned] at hu⟩
  · exact ⟨fun hlim => by simp at hlim, fun hu => by simp [RouteTarget.isUnversioned] at hu⟩
  · exact ⟨fun hlim => by simp at hlim, fun hu => by simp [RouteTarget.isUnversioned] at hu⟩
  · cases hsub : versionedSubroute (path.drop 2) with
    | some h =>
      refine ⟨fun _ => h4, fun hu => ?_⟩
      rw [versionedSubroute_not_unversioned _ _ hsub] at hu
      exact Bool.noConfusion hu
    | none =>
      refine ⟨fun _ => h4, fun hu => ?_⟩
      exfalso
      cases huv : unversionedRoute path with
      | none => rw [huv] at hu; simp [RouteTarget.isUnversioned] at hu
      | some u =>
        exact hv (unversionedRoute_forces_segment path u huv version h4)
  · cases huv : unversionedRoute path <;>
      exact ⟨fun hlim => by simp at hlim, fun _ => rfl⟩

/-- Witness for C10 at a concrete input: with version v1, the request
/api/auth/login resolves to the unversioned auth mount and the rate
limiter was not invoked on it. -/
theorem limiter_only_on_versioned_mount_witness :
    (dispatch "v1" ["api", "auth", "login"]).2 = .unversionedAuth ∧
      (dispatch "v1" ["api", "auth", "login"]).1 = false := by
  have h := limiter_only_on_versioned_mount "v1" ["api", "auth", "login"] (by decide)
  exact ⟨rfl, h.2 rfl⟩

end StudioSync
